import Mathlib

/-!
Verification development for the fan-out document-processing orchestration
(`src/pipeline`): shallow embedding of the orchestrators
(`function_app.py`: `run`, `process_blob`, `start_orchestrator_http`,
`list_orchestration_history`), the activities
(`runDocIntel.py`, `callAoai.py`, `writeToBlob.py`) and the retry policies,
together with theorems settling the specification claims.

Python strings are modelled as Lean `String`s manipulated through their
character lists (so that every definition evaluates by `decide`/`rfl`);
machine-level details (UTF-8 byte positions) are irrelevant to the claims,
which only concern character content.  External collaborators (blob storage,
Document Intelligence, Azure OpenAI, `json.loads`/`json.dumps`) are passed in
as explicit oracle parameters, `Except` for fallible calls.
-/

namespace DocPipeline

/-! ### Python string primitives (character-level semantics) -/

/-- The characters stripped by Python's `str.strip()` with no argument
(ASCII whitespace; exotic Unicode whitespace never occurs in the claims). -/
def isPyWhitespace (c : Char) : Bool :=
  c = ' ' || c = '\t' || c = '\n' || c = '\r' || c = '\x0b' || c = '\x0c'

/-- Strip characters satisfying `p` from both ends of a character list
(Python `str.strip`). -/
def pyStripWhileL (p : Char → Bool) (l : List Char) : List Char :=
  ((l.dropWhile p).reverse.dropWhile p).reverse

/-- Python `s.strip()`. -/
def pyStrip (s : String) : String := ⟨pyStripWhileL isPyWhitespace s.data⟩

/-- Python `s.rstrip()`. -/
def pyRStrip (s : String) : String :=
  ⟨(s.data.reverse.dropWhile isPyWhitespace).reverse⟩

/-- Python `s.strip(chars)` for a single stripping character `c`
(used to strip backtick fence characters from both ends). -/
def pyStripChar (c : Char) (s : String) : String :=
  ⟨pyStripWhileL (· = c) s.data⟩

/-- Python `s.startswith(pre)`. -/
def pyStartsWith (s pre : String) : Bool :=
  pre.data.isPrefixOf s.data

/-- Python `str.lower` on one ASCII character. -/
def pyCharLower (c : Char) : Char :=
  if 'A' ≤ c && c ≤ 'Z' then Char.ofNat (c.toNat + 32) else c

/-- Python `s.lower()`. -/
def pyLower (s : String) : String := ⟨s.data.map pyCharLower⟩

/-- Python `s[n:]` (drop the first `n` characters). -/
def pyDrop (s : String) (n : Nat) : String := ⟨s.data.drop n⟩

/-- Python truthiness of an optional string: `None` and `""` are falsy. -/
def pyTruthyStr : Option String → Bool
  | none => false
  | some s => s ≠ ""

/-- Python `a or b` where `a` is an optional string (used for
`context.parent_instance_id or context.instance_id`): falls through to `b`
when `a` is `None` or empty. -/
def pyOrStr : Option String → String → String
  | some s, b => if s = "" then b else s
  | none, b => b

/-! ### Python path helpers (`os.path.basename`, `os.path.splitext`) -/

/-- Python `os.path.basename` (POSIX): the part after the last `/`. -/
def basename (p : String) : String :=
  ⟨((p.data.splitOn '/').getLastD [])⟩

/-- Index of the last occurrence of `c` in `l`, if any. -/
def rlastIdx (c : Char) : List Char → Option Nat
  | [] => none
  | a :: as =>
    match rlastIdx c as with
    | some i => some (i + 1)
    | none => if a = c then some 0 else none

/-- The root of `os.path.splitext` on a separator-free file name: split at the
last dot, except that a name whose characters before that dot are all dots
(e.g. `.bashrc`, `...`) has no extension (CPython `genericpath._splitext`). -/
def splitextRootL (l : List Char) : List Char :=
  match rlastIdx '.' l with
  | none => l
  | some di => if (l.take di).all (· = '.') then l else l.take di

/-- Python `os.path.splitext(name)[0]` for a name containing no `/`. -/
def splitextRoot (s : String) : String := ⟨splitextRootL s.data⟩

/-! ### Retry policies (`azure.durable_functions.RetryOptions` as configured
in `function_app.py:process_blob`) -/

/-- The `RetryOptions(first_retry_interval_in_milliseconds, max_number_of_attempts)` value
plus the mutated `backoff_coefficient` and `max_retry_interval` fields.
Intervals are in milliseconds, as rationals (the coefficient is a float in
the source; all concrete values are exact). -/
structure RetryOptions where
  firstRetryIntervalMs : ℚ
  maxNumberOfAttempts : ℕ
  backoffCoefficient : ℚ
  maxRetryIntervalMs : ℚ
deriving Repr, DecidableEq

/-- Source: `doc_retry = RetryOptions(5, 3); backoff_coefficient = 2;
max_retry_interval = timedelta(seconds=30)` (extraction stage). -/
def doc_retry : RetryOptions := ⟨5, 3, 2, 30000⟩

/-- Source: `aoai_retry = RetryOptions(10, 3); backoff_coefficient = 2;
max_retry_interval = timedelta(seconds=60)` (transformation stage). -/
def aoai_retry : RetryOptions := ⟨10, 3, 2, 60000⟩

/-- Source: `write_retry = RetryOptions(5, 5); backoff_coefficient = 2;
max_retry_interval = timedelta(seconds=30)` (persistence stage). -/
def write_retry : RetryOptions := ⟨5, 5, 2, 30000⟩

/-- Modelled from the spec: the durable-execution substrate's backoff
computation (the retry loop of `call_activity_with_retry` is library code not
under `src/`).  The delay before retry number `n` (`n ≥ 1`) grows
geometrically from the first retry interval and is capped at the maximum
retry interval. -/
def dfDelayMs (p : RetryOptions) (retryNumber : ℕ) : ℚ :=
  let d := p.firstRetryIntervalMs * p.backoffCoefficient ^ (retryNumber - 1)
  if d > p.maxRetryIntervalMs then p.maxRetryIntervalMs else d

/-- Failure record produced when a stage exhausts its retry policy: the stage
name, the number of attempts made, and the last underlying error. -/
structure StageFailure (E : Type) where
  stageName : String
  attempts : ℕ
  lastError : E
deriving Repr, DecidableEq

/-- Modelled from the spec: the Stage Executor retry loop (§4.1; the actual
loop lives in the `azure.durable_functions` library, not under `src/`).
`i` is the current attempt number, `fuel` the number of further attempts
allowed after this one; the operation is consulted as `op i`.  Returns the
successful value together with the attempt that produced it, or the terminal
`StageFailure`. -/
def executeGo {E A : Type} (stage : String) (op : ℕ → Except E A) :
    ℕ → ℕ → Except (StageFailure E) (A × ℕ)
  | i, fuel =>
    match op i with
    | .ok a => .ok (a, i)
    | .error e =>
      match fuel with
      | 0 => .error ⟨stage, i, e⟩
      | fuel' + 1 => executeGo stage op (i + 1) fuel'

/-- Modelled from the spec: `execute(stageName, policy, operation)` — run the
operation with at most `policy.maxNumberOfAttempts` total attempts (at least
one attempt is always made, as the policies all have `maxAttempts ≥ 1`). -/
def execute {E A : Type} (stage : String) (p : RetryOptions)
    (op : ℕ → Except E A) : Except (StageFailure E) (A × ℕ) :=
  executeGo stage op 1 (p.maxNumberOfAttempts - 1)

/-! ### Data model (`BlobMetadata` and the activity input/output shapes) -/

/-- From `pipelineUtils/blob_functions.py`: `BlobMetadata` — one document
reference (`name`, `url`, `container`). -/
structure BlobMetadata where
  name : String
  url : String
  container : String
deriving Repr, DecidableEq

/-- The dictionary `process_blob` packages for the `callAoai` activity:
`{"text_result": text_result, "instance_id": sub_orchestration_id}`.
`text_result` is the `runDocIntel` return value, which may be `None`. -/
structure CallAoaiInput where
  text_result : Option String
  instance_id : String
deriving Repr, DecidableEq

/-- The dictionary `process_blob` packages for the `writeToBlob` activity:
`{"json_str": ..., "blob_name": ..., "instance_id": ...}`.  `json_str` is the
`callAoai` return value (possibly `None`); `instance_id` is optional in the
activity (`args.get('instance_id', 'general')`). -/
structure WriteToBlobArgs where
  json_str : Option String
  blob_name : String
  instance_id : Option String
deriving Repr, DecidableEq

/-- The dictionary returned by the `writeToBlob` activity. -/
structure WriteResult where
  success : Bool
  blob_name : Option String
  output_blob : Option String
  error : Option String
deriving Repr, DecidableEq

/-- The `result_payload` dictionary returned by the `ProcessBlob` sub-orchestrator:
`{"blob": ..., "text_result": ..., "task_result": ...}`. -/
structure ResultPayload where
  blob : BlobMetadata
  text_result : Option String
  task_result : WriteResult
deriving Repr, DecidableEq

/-! ### Extraction activity (`activities/runDocIntel.py`) -/

/-- One paragraph of an `AnalyzeResult` (only its `content` matters). -/
structure Paragraph where
  content : String
deriving Repr, DecidableEq

/-- Source `normalize_blob_name(container, raw_name)`: strip the container prefix if
included in the name. -/
def normalize_blob_name (container raw_name : String) : String :=
  if pyStartsWith raw_name (container ++ "/") then
    pyDrop raw_name (container.length + 1)
  else raw_name

/-- The activity `runDocIntel.extract_text_from_blob(blobObj)` for a dict input.
`get_blob_content` and the `begin_analyze_document`/`poller.result()` round
trip are oracles; the analysis yields `result.paragraphs`, which can be
absent (`None`, i.e. `none`) or a list.  Everything inside the `try` that
raises is caught and turned into a `None` return.  When `result.paragraphs`
is falsy (absent or empty) the local variable `paragraphs` is never assigned,
so `return paragraphs` raises `NameError`, which the `except` clause also
converts to `None`. -/
def extract_text_from_blob {E B : Type}
    (get_blob_content : String → String → Except E B)
    (analyze : B → Except E (Option (List Paragraph)))
    (blobObj : BlobMetadata) : Option String :=
  let blob_name := normalize_blob_name blobObj.container blobObj.name
  match get_blob_content blobObj.container blob_name with
  | .error _ => none
  | .ok blob_content =>
    match analyze blob_content with
    | .error _ => none
    | .ok resultParagraphs =>
      match resultParagraphs with
      | some ps =>
        if ps ≠ [] then some (String.intercalate "\n" (ps.map Paragraph.content))
        else none
      | none => none

/-! ### Transformation activity (`activities/callAoai.py`) -/

/-- The dict returned by `load_prompts()` as consumed by `callAoai`:
`prompt_json.get('system_prompt')` / `prompt_json.get('user_prompt')`
(each possibly absent). -/
structure Prompts where
  system_prompt : Option String
  user_prompt : Option String
deriving Repr, DecidableEq

/-- The fence-stripping phase of `callAoai.run`: `trimmed =
response_content.strip()`, then, when the result starts with three backticks,
strip all backticks from both ends and, when the remainder starts with
`json` (case-insensitively), drop those four characters and strip again. -/
def callAoai_stripCore (response_content : String) : String :=
  let trimmed := pyStrip response_content
  if pyStartsWith trimmed "```" then
    let t := pyStripChar '`' trimmed
    if pyStartsWith (pyLower t) "json" then pyStrip (pyDrop t 4) else t
  else trimmed

/-- The response-normalization tail of `callAoai.run`: fence stripping
followed by `json.loads`/`json.dumps`.  `parse` models `json.loads`
restricted to success/failure on a whole string (`none` =
`JSONDecodeError`); `dump` models `json.dumps(·, ensure_ascii=False,
separators=(",", ":"))`.  On parse failure the *stripped* text is returned
(the `except` branch returns `trimmed`). -/
def callAoai_normalize {J : Type} (parse : String → Option J) (dump : J → String)
    (response_content : String) : String :=
  match parse (callAoai_stripCore response_content) with
  | some parsed => dump parsed
  | none => callAoai_stripCore response_content

/-- Raw input to the `callAoai` activity: either not a dict (the
`isinstance` guard raises `TypeError`, caught below) or a dict. -/
inductive CallAoaiRawInput
  | notADict
  | dict (d : CallAoaiInput)
deriving DecidableEq

/-- The activity `callAoai.run(inputData)`.  `load_prompts` (which can raise) and
`run_prompt` (which can raise — e.g. from `save_chat_message` — or return
`None`) are oracles.  The whole body sits in `try: ... except Exception:
return None`, so every raised error becomes a `None` return:
 * non-dict input (`TypeError`),
 * missing or empty `text_result` (`ValueError`),
 * `load_prompts` raising, or prompts missing/empty `system_prompt` or
   `user_prompt` (`KeyError`),
 * `run_prompt` raising or returning `None` (`RuntimeError`). -/
def callAoai_run {J E : Type} (parse : String → Option J) (dump : J → String)
    (load_prompts : Except E Prompts)
    (run_prompt : String → String → String → Except E (Option String))
    (inputData : CallAoaiRawInput) : Option String :=
  match inputData with
  | .notADict => none
  | .dict d =>
    if !pyTruthyStr d.text_result then none
    else
      match d.text_result with
      | none => none
      | some text_result =>
        match load_prompts with
        | .error _ => none
        | .ok prompt_json =>
          if !pyTruthyStr prompt_json.system_prompt
              || !pyTruthyStr prompt_json.user_prompt then none
          else
            match prompt_json.system_prompt, prompt_json.user_prompt with
            | some system_prompt, some user_prompt_template =>
              let full_user_prompt :=
                pyRStrip user_prompt_template ++ "\n\n" ++ text_result
              match run_prompt d.instance_id system_prompt full_user_prompt with
              | .error _ => none
              | .ok none => none
              | .ok (some response_content) =>
                some (callAoai_normalize parse dump response_content)
            | _, _ => none

/-! ### Persistence activity (`activities/writeToBlob.py`) -/

/-- The activity `writeToBlob.extract_text_from_blob(args)` (the activity keeps that
name in the source).  `write_to_blob` (blob upload; returns `True` or
raises) is an oracle.  A missing/empty/whitespace `json_str` raises
`ValueError`, caught into a failure dict; a raised upload error is likewise
caught into a failure dict carrying the message. -/
def writeToBlob_run {E : Type} (write_to_blob : String → String → String → Except E Bool)
    (NEXT_STAGE : String) (args : WriteToBlobArgs) : WriteResult :=
  let errorResult : WriteResult :=
    ⟨false, none, none, some ("Error writing output for blob " ++ args.blob_name)⟩
  match args.json_str with
  | none => errorResult
  | some json_str =>
    if pyStrip json_str = "" then errorResult
    else
      let sourcefile := splitextRoot (basename args.blob_name)
      let output_blob :=
        (args.instance_id.getD "general") ++ "/" ++ sourcefile ++ "-output.json"
      match write_to_blob NEXT_STAGE output_blob json_str with
      | .error _ => errorResult
      | .ok result =>
        if result then ⟨true, some args.blob_name, some output_blob, none⟩
        else ⟨false, none, none, some "Failed to write output"⟩

/-! ### Document sub-orchestrator (`function_app.py:process_blob`) -/

/-- The three pipeline stages, in the order the sub-orchestrator yields
them: `runDocIntel` (extraction), `callAoai` (transformation),
`writeToBlob` (persistence). -/
inductive Stage
  | extraction
  | transformation
  | persistence
deriving Repr, DecidableEq

/-- The orchestration context fields `process_blob` reads:
`context.instance_id` (own id) and `context.parent_instance_id`
(nullable). -/
structure ProcessBlobCtx where
  instance_id : String
  parent_instance_id : Option String
deriving Repr, DecidableEq

/-- The sub-orchestrator `process_blob(context)`: the `ProcessBlob` generator body.  Each durable
`yield context.call_activity_with_retry(...)` is an oracle whose outcome is
either the activity's return value (`.ok`) or the orchestration failure
raised after retry exhaustion (`.error`), which aborts the generator.  The
second component is the trace of stage calls actually yielded, in order. -/
def process_blob {E : Type} (ctx : ProcessBlobCtx) (blob_metadata : BlobMetadata)
    (runDocIntelCall : BlobMetadata → Except E (Option String))
    (callAoaiCall : CallAoaiInput → Except E (Option String))
    (writeToBlobCall : WriteToBlobArgs → Except E WriteResult) :
    Except E ResultPayload × List Stage :=
  match runDocIntelCall blob_metadata with
  | .error e => (.error e, [Stage.extraction])
  | .ok text_result =>
    let call_aoai_input : CallAoaiInput := ⟨text_result, ctx.instance_id⟩
    match callAoaiCall call_aoai_input with
    | .error e => (.error e, [Stage.extraction, Stage.transformation])
    | .ok json_str =>
      let write_args : WriteToBlobArgs :=
        ⟨json_str, blob_metadata.name,
          some (pyOrStr ctx.parent_instance_id ctx.instance_id)⟩
      match writeToBlobCall write_args with
      | .error e =>
        (.error e, [Stage.extraction, Stage.transformation, Stage.persistence])
      | .ok task_result =>
        (.ok ⟨blob_metadata, text_result, task_result⟩,
          [Stage.extraction, Stage.transformation, Stage.persistence])

/-! ### Batch orchestrator (`function_app.py:run`) -/

/-- Durable `context.task_all(sub_tasks)` (durable `WhenAll`): waits for every task;
if any sub-orchestration failed, the composite task raises (the first
failure), otherwise it yields the list of results in task order. -/
def task_all {E R : Type} : List (Except E R) → Except E (List R)
  | [] => .ok []
  | t :: ts =>
    match t with
    | .error e => .error e
    | .ok r =>
      match task_all ts with
      | .error e => .error e
      | .ok rs => .ok (r :: rs)

/-- The batch orchestrator `run(context)`: fan one `ProcessBlob`
sub-orchestration out per input document reference, `yield task_all`, return
the collected results.  `processBlobOutcome` is the terminal outcome of one
child sub-orchestration (payload, or the failure it raised). -/
def orchestrator_run {E : Type} (processBlobOutcome : BlobMetadata → Except E ResultPayload)
    (input_data : List BlobMetadata) : Except E (List ResultPayload) :=
  task_all (input_data.map processBlobOutcome)

/-! ### HTTP starter (`function_app.py:start_orchestrator_http`) -/

/-- A JSON value occurring as a field of a request blob entry, as far as the
validation inspects it: a string, or something that is not a string. -/
inductive PyVal
  | str (s : String)
  | nonStr
deriving DecidableEq

/-- One element of the request's `blobs` array: either not an object, or an
object with its (possibly absent) `name`/`url`/`container` fields. -/
inductive BlobEntry
  | notAnObject
  | object (name url container : Option PyVal)
deriving DecidableEq

/-- The `blobs` member of the request body: absent, present but not a list,
or a list of entries. -/
inductive BlobsVal
  | missing
  | notAList
  | arr (entries : List BlobEntry)
deriving DecidableEq

/-- One required field passes validation when it is present, is a string,
and strips to non-empty (`k in b and isinstance(b[k], str) and b[k].strip()`). -/
def validField : Option PyVal → Bool
  | some (.str s) => pyStrip s ≠ ""
  | _ => false

/-- One entry passes validation when it is an object whose `name`, `url` and
`container` fields all pass `validField`. -/
def validEntry : BlobEntry → Bool
  | .notAnObject => false
  | .object name url container => validField name && validField url && validField container

/-- Observable outcome of `start_orchestrator_http` (ignoring the message
text): HTTP status code, `success` flag, and the returned instance id when
one was started. -/
structure StartResponse where
  status_code : ℕ
  success : Bool
  instanceId : Option String
deriving Repr, DecidableEq

/-- The route `start_orchestrator_http(req, client)` after the authentication and
rate-limit preamble (out of scope per §1).  `body` is `none` when
`req.get_json()` raises (invalid JSON); `start_new` is the oracle for
`client.start_new('orchestrator', client_input=blobs)`.  The second
component logs every `start_new` invocation, so an empty log means no
workflow instance was created. -/
def start_orchestrator_http (start_new : List BlobEntry → String)
    (body : Option BlobsVal) : StartResponse × List (List BlobEntry) :=
  match body with
  | none => (⟨400, false, none⟩, [])
  | some blobs =>
    match blobs with
    | .missing => (⟨400, false, none⟩, [])
    | .notAList => (⟨400, false, none⟩, [])
    | .arr entries =>
      if entries = [] then (⟨400, false, none⟩, [])
      else if !entries.all validEntry then (⟨400, false, none⟩, [])
      else
        let instance_id := start_new entries
        (⟨202, true, some instance_id⟩, [entries])

/-! ### History listing (`function_app.py:list_orchestration_history`) -/

/-- One durable orchestration status record, restricted to the fields the
listing logic inspects: `instance_id` and `created_time` (nullable).
Timestamps are naturals, with `datetime.min` at `0` (every real
`created_time` is at least `datetime.min`). -/
structure OrchStatus where
  instance_id : String
  created_time : Option ℕ
deriving Repr, DecidableEq

/-- The sort key `s.created_time or datetime.min`. -/
def statusSortKey (s : OrchStatus) : ℕ := s.created_time.getD 0

/-- The route `list_orchestration_history(req, client)` after authentication, with the
bad-`limit`/bad-`since` 400 paths factored out (`limit_param` arrives already
parsed, `since_param` already parsed to a timestamp).  Mirrors the source:
`limit = int(limit_param) if limit_param else 20; limit = max(1, min(limit,
100))`; filter to statuses whose `created_time` exists and is `≥ since`;
stable sort newest-first by `created_time or datetime.min`
(`list.sort(..., reverse=True)` is stable — ties keep their original order —
so it is modelled by a stable insertion sort on the reversed key, which
produces the same list as every stable sort for a given comparator);
truncate to `limit`. -/
def list_orchestration_history (statuses : List OrchStatus)
    (limit_param : Option ℤ) (since_param : Option ℕ) : List OrchStatus :=
  let limit : ℤ := max 1 (min (limit_param.getD 20) 100)
  let filtered :=
    match since_param with
    | some since_time =>
      statuses.filter (fun (s : OrchStatus) =>
        match s.created_time with
        | some t => decide (since_time ≤ t)
        | none => false)
    | none => statuses
  let sorted := filtered.insertionSort (fun a b => statusSortKey b ≤ statusSortKey a)
  sorted.take limit.toNat

/-- The effective limit used by `list_orchestration_history`. -/
def effectiveLimit (limit_param : Option ℤ) : ℤ :=
  max 1 (min (limit_param.getD 20) 100)

/-! ### Claim C1 — stage order and fail-fast -/

/-- C1: for every document workflow, the trace of stage calls is a prefix of
extraction → transformation → persistence (so stages run strictly in that
order), and the persistence stage is invoked exactly when both the extraction
call and the transformation call returned without a terminal (retry-exhausted)
failure — in particular it is never invoked after a terminal failure of
extraction or transformation. -/
theorem C1_stage_order_fail_fast {E : Type} (ctx : ProcessBlobCtx)
    (b : BlobMetadata)
    (ext : BlobMetadata → Except E (Option String))
    (tra : CallAoaiInput → Except E (Option String))
    (per : WriteToBlobArgs → Except E WriteResult) :
    (process_blob ctx b ext tra per).2 <+:
        [Stage.extraction, Stage.transformation, Stage.persistence]
    ∧ (Stage.persistence ∈ (process_blob ctx b ext tra per).2 ↔
        ∃ t j, ext b = .ok t ∧ tra ⟨t, ctx.instance_id⟩ = .ok j) := by
  rcases hE : ext b with e | t
  · simp only [process_blob, hE]
    refine ⟨⟨[Stage.transformation, Stage.persistence], rfl⟩, ?_⟩
    constructor
    · intro h
      exact absurd h (by decide)
    · rintro ⟨t', j', ht', -⟩
      exact Except.noConfusion ht'
  · rcases hT : tra ⟨t, ctx.instance_id⟩ with e | j
    · simp only [process_blob, hE, hT]
      refine ⟨⟨[Stage.persistence], rfl⟩, ?_⟩
      constructor
      · intro h
        exact absurd h (by decide)
      · rintro ⟨t', j', ht', hj'⟩
        have ht2 : t = t' := Except.ok.inj ht'
        rw [← ht2] at hj'
        rw [hT] at hj'
        exact Except.noConfusion hj'
    · rcases hP : per ⟨j, b.name, some (pyOrStr ctx.parent_instance_id ctx.instance_id)⟩
        with e | r
      · simp only [process_blob, hE, hT, hP]
        refine ⟨⟨[], by simp⟩, ?_⟩
        constructor
        · intro _
          exact ⟨t, j, rfl, hT⟩
        · intro _
          decide
      · simp only [process_blob, hE, hT, hP]
        refine ⟨⟨[], by simp⟩, ?_⟩
        constructor
        · intro _
          exact ⟨t, j, rfl, hT⟩
        · intro _
          decide

/-- Closed instance of C1: with a terminally failing extraction call, the
trace is just the extraction stage and persistence is never invoked. -/
theorem C1_stage_order_fail_fast_witness :
    Stage.persistence ∉
      (process_blob (E := String) ⟨"doc1", some "batch1"⟩ ⟨"bronze/f.txt", "u", "bronze"⟩
        (fun _ => .error "extraction retries exhausted")
        (fun _ => .ok (some "{}"))
        (fun _ => .ok ⟨true, none, none, none⟩)).2 := by
  have h := C1_stage_order_fail_fast (E := String) ⟨"doc1", some "batch1"⟩
    ⟨"bronze/f.txt", "u", "bronze"⟩
    (fun _ => .error "extraction retries exhausted")
    (fun _ => .ok (some "{}"))
    (fun _ => .ok ⟨true, none, none, none⟩)
  intro hmem
  rcases h.2.mp hmem with ⟨t, j, ht, _⟩
  cases ht

/-! ### Claim C2 — retry policy semantics -/

/-- If every attempt from `i` through `i + fuel` fails, the executor returns
the terminal failure after attempt `i + fuel`, carrying the last error. -/
theorem executeGo_error {E A : Type} (stage : String) (op : ℕ → Except E A)
    (err : ℕ → E) (fuel : ℕ) :
    ∀ i, (∀ n, i ≤ n → n ≤ i + fuel → op n = Except.error (err n)) →
      executeGo stage op i fuel = Except.error ⟨stage, i + fuel, err (i + fuel)⟩ := by
  induction fuel with
  | zero =>
    intro i h
    have hi := h i le_rfl (Nat.le_add_right i 0)
    rw [executeGo, hi]
    rfl
  | succ fuel ih =>
    intro i h
    have hi := h i le_rfl (by omega)
    have ihh := ih (i + 1) (fun n hn1 hn2 => h n (by omega) (by omega))
    have harith : i + 1 + fuel = i + (fuel + 1) := by omega
    rw [harith] at ihh
    rw [executeGo, hi]
    exact ihh

/-- A successful execution starting at attempt `i` with `fuel` further
attempts allowed succeeded at some attempt `j` with `i ≤ j ≤ i + fuel`. -/
theorem executeGo_ok_le {E A : Type} (stage : String) (op : ℕ → Except E A)
    (fuel : ℕ) :
    ∀ i a j, executeGo stage op i fuel = Except.ok (a, j) → i ≤ j ∧ j ≤ i + fuel := by
  induction fuel with
  | zero =>
    intro i a j h
    rw [executeGo] at h
    rcases hop : op i with e | a'
    · rw [hop] at h
      exact absurd h (by intro hc; exact Except.noConfusion hc)
    · rw [hop] at h
      have h2 : a' = a ∧ i = j := by
        have := Except.ok.inj h
        exact ⟨congrArg Prod.fst this, congrArg Prod.snd this⟩
      omega
  | succ fuel ih =>
    intro i a j h
    rw [executeGo] at h
    rcases hop : op i with e | a'
    · rw [hop] at h
      have := ih (i + 1) a j h
      omega
    · rw [hop] at h
      have h2 : a' = a ∧ i = j := by
        have := Except.ok.inj h
        exact ⟨congrArg Prod.fst this, congrArg Prod.snd this⟩
      omega

/-- C2: for every stage policy with `maxAttempts = k ≥ 1`, the delay before
attempt `i` (`i > 1`), i.e. before retry number `i - 1`, equals
`min(base * c^(i-2), maxRetryInterval)`; a successful execution used at most
`k` attempts; and if every one of the `k` attempts fails, the executor
returns a failure carrying the stage name, the attempt count `k`, and the
last underlying error. -/
theorem C2_retry_policy {E A : Type} (stage : String) (p : RetryOptions)
    (op : ℕ → Except E A) (err : ℕ → E) (hk : 1 ≤ p.maxNumberOfAttempts) :
    (∀ i, 2 ≤ i → dfDelayMs p (i - 1)
        = min (p.firstRetryIntervalMs * p.backoffCoefficient ^ (i - 2))
            p.maxRetryIntervalMs)
    ∧ (∀ a j, execute stage p op = .ok (a, j) → j ≤ p.maxNumberOfAttempts)
    ∧ ((∀ i, 1 ≤ i → i ≤ p.maxNumberOfAttempts → op i = .error (err i)) →
        execute stage p op
          = .error ⟨stage, p.maxNumberOfAttempts, err p.maxNumberOfAttempts⟩) := by
  refine ⟨?_, ?_, ?_⟩
  · intro i hi
    simp only [dfDelayMs]
    have h2 : i - 1 - 1 = i - 2 := by omega
    rw [h2]
    rcases le_or_lt (p.firstRetryIntervalMs * p.backoffCoefficient ^ (i - 2))
        p.maxRetryIntervalMs with h | h
    · rw [if_neg (not_lt.2 h), min_eq_left h]
    · rw [if_pos h, min_eq_right h.le]
  · intro a j hok
    have := executeGo_ok_le stage op (p.maxNumberOfAttempts - 1) 1 a j hok
    omega
  · intro hall
    have h := executeGo_error stage op err (p.maxNumberOfAttempts - 1) 1
      (fun n hn1 hn2 => hall n hn1 (by omega))
    have harith : 1 + (p.maxNumberOfAttempts - 1) = p.maxNumberOfAttempts := by omega
    rw [harith] at h
    exact h

/-- Closed instance of C2 at the transformation policy
(`aoai_retry`, `maxAttempts = 3`): the delay before attempt 2 is
`min(10 * 2^0, 60000)` ms, and an operation failing on every attempt
exhausts exactly 3 attempts and reports the last error. -/
theorem C2_retry_policy_witness :
    dfDelayMs aoai_retry 1 = min ((10 : ℚ) * 2 ^ (0 : ℕ)) 60000
    ∧ execute "callAoai" aoai_retry (fun _ => (Except.error "boom" : Except String Unit))
        = Except.error ⟨"callAoai", 3, "boom"⟩ := by
  have h := C2_retry_policy "callAoai" aoai_retry
    (fun _ => (Except.error "boom" : Except String Unit)) (fun _ => "boom") (by decide)
  exact ⟨h.1 2 (by decide), h.2.2 (fun i _ _ => rfl)⟩

/-! ### Claim C4 — response normalization -/

/-- C4 counterexample: the claim says a response that does not parse as JSON
normalizes to itself unchanged; but the source returns the *stripped* text.
Concretely, under a parse oracle on which nothing is JSON (so the non-JSON
hypothesis certainly holds for this response), the response
`" raw "` (surrounding whitespace) normalizes to `"raw"`, which differs from
the response itself. -/
theorem C4_counterexample :
    callAoai_normalize (fun _ => (none : Option Unit)) (fun _ => "") " raw " = "raw"
    ∧ " raw " ≠ "raw" := by
  constructor
  · decide
  · decide

/-- C4 (amended): fence stripping first reduces the response to its core
(whitespace-stripped; backtick fences and a leading `json` tag removed);
a core that parses as JSON normalizes to the re-serialized parsed value (so
the spec's fenced example normalizes to its inner JSON), and a core that does
not parse normalizes to the core itself — the stripped text, not necessarily
the verbatim response — rather than failing the stage. -/
theorem C4_normalize_amended {J : Type} (parse : String → Option J)
    (dump : J → String) :
    (∀ r j, parse (callAoai_stripCore r) = some j →
        callAoai_normalize parse dump r = dump j)
    ∧ (∀ r, parse (callAoai_stripCore r) = none →
        callAoai_normalize parse dump r = callAoai_stripCore r)
    ∧ callAoai_stripCore "```json\n\x7b\"a\":1\x7d\n```" = "\x7b\"a\":1\x7d" := by
  refine ⟨?_, ?_, by decide⟩
  · intro r j h
    unfold callAoai_normalize
    rw [h]
  · intro r h
    unfold callAoai_normalize
    rw [h]

/-- Closed instance of C4 (amended): with a parse/dump oracle pair that
parses exactly the inner JSON text of the spec's example and re-serializes
it identically, the fenced response normalizes to the inner JSON. -/
theorem C4_normalize_amended_witness :
    callAoai_normalize
        (fun s => if s = "\x7b\"a\":1\x7d" then some s else none) (fun j => j)
        "```json\n\x7b\"a\":1\x7d\n```"
      = "\x7b\"a\":1\x7d" := by
  have h := C4_normalize_amended (J := String)
    (fun s => if s = "\x7b\"a\":1\x7d" then some s else none) (fun j => j)
  have hc := h.2.2
  have := h.1 "```json\n\x7b\"a\":1\x7d\n```" "\x7b\"a\":1\x7d" (by rw [hc]; decide)
  exact this

/-! ### Claim C9 — the transformation activity is total -/

/-- C9: `callAoai.run` is total on its side of the boundary — for every
input it returns an optional string (by its very type: the `try/except`
wrapper is embedded as explicit `none` returns on every raise path), and
each internal error is converted to a `none` return: non-dict input, missing
or empty `text_result`, a raising prompt loader, prompt configuration
missing or empty `system_prompt`/`user_prompt`, and a model call that raises
or returns no content.  Consequently the retry wrapper around the activity
accepts the result (whatever it is) on the first attempt: the configured
retry policy is never triggered by these failures. -/
theorem C9_callAoai_total_never_raises {J E : Type} (parse : String → Option J)
    (dump : J → String) (load_prompts : Except E Prompts)
    (run_prompt : String → String → String → Except E (Option String))
    (inputData : CallAoaiRawInput) :
    (execute "callAoai" aoai_retry
        (fun _ => (Except.ok (callAoai_run parse dump load_prompts run_prompt inputData) :
          Except E (Option String)))
      = Except.ok (callAoai_run parse dump load_prompts run_prompt inputData, 1))
    ∧ callAoai_run parse dump load_prompts run_prompt .notADict = none
    ∧ (∀ d, pyTruthyStr d.text_result = false →
        callAoai_run parse dump load_prompts run_prompt (.dict d) = none)
    ∧ (∀ d e, load_prompts = Except.error e →
        callAoai_run parse dump load_prompts run_prompt (.dict d) = none)
    ∧ (∀ d p, load_prompts = Except.ok p →
        (pyTruthyStr p.system_prompt = false ∨ pyTruthyStr p.user_prompt = false) →
        callAoai_run parse dump load_prompts run_prompt (.dict d) = none)
    ∧ (∀ d, (∀ pid sp up, run_prompt pid sp up = Except.ok none ∨
          ∃ e, run_prompt pid sp up = Except.error e) →
        callAoai_run parse dump load_prompts run_prompt (.dict d) = none) := by
  refine ⟨rfl, rfl, ?_, ?_, ?_, ?_⟩
  · intro d h
    simp [callAoai_run, h]
  · intro d e he
    rcases hd : d.text_result with - | t
    · simp [callAoai_run, hd, pyTruthyStr]
    · by_cases ht : t = ""
      · simp [callAoai_run, hd, ht, pyTruthyStr]
      · simp [callAoai_run, hd, ht, pyTruthyStr, he]
  · intro d p hp hbad
    rcases hd : d.text_result with - | t
    · simp [callAoai_run, hd, pyTruthyStr]
    · by_cases ht : t = ""
      · simp [callAoai_run, hd, ht, pyTruthyStr]
      · rcases hbad with hb | hb
        · rcases hsp : p.system_prompt with - | sp
          · simp [callAoai_run, hd, ht, pyTruthyStr, hp, hsp]
          · rw [hsp] at hb
            simp only [pyTruthyStr] at hb
            have hspe : sp = "" := by simpa using hb
            simp [callAoai_run, hd, ht, pyTruthyStr, hp, hsp, hspe]
        · rcases hup : p.user_prompt with - | up
          · simp [callAoai_run, hd, ht, pyTruthyStr, hp, hup]
          · rw [hup] at hb
            simp only [pyTruthyStr] at hb
            have hupe : up = "" := by simpa using hb
            simp [callAoai_run, hd, ht, pyTruthyStr, hp, hup, hupe]
  · intro d hrp
    rcases hd : d.text_result with - | t
    · simp [callAoai_run, hd, pyTruthyStr]
    · by_cases ht : t = ""
      · simp [callAoai_run, hd, ht, pyTruthyStr]
      · rcases hp : load_prompts with e | p
        · simp [callAoai_run, hd, ht, pyTruthyStr, hp]
        · rcases hsp : p.system_prompt with - | sp
          · simp [callAoai_run, hd, ht, pyTruthyStr, hp, hsp]
          · rcases hup : p.user_prompt with - | up
            · simp [callAoai_run, hd, ht, pyTruthyStr, hp, hsp, hup]
            · by_cases hspe : sp = ""
              · simp [callAoai_run, hd, ht, pyTruthyStr, hp, hsp, hup, hspe]
              · by_cases hupe : up = ""
                · simp [callAoai_run, hd, ht, pyTruthyStr, hp, hsp, hup, hupe]
                · rcases hrp d.instance_id sp (pyRStrip up ++ "\n\n" ++ t)
                      with hok | ⟨e, herr⟩
                  · simp [callAoai_run, hd, ht, pyTruthyStr, hp, hsp, hup,
                      hspe, hupe, hok]
                  · simp [callAoai_run, hd, ht, pyTruthyStr, hp, hsp, hup,
                      hspe, hupe, herr]

/-- Closed instance of C9: with a prompt loader that raises, the activity
returns `None` instead of raising. -/
theorem C9_callAoai_total_witness :
    callAoai_run (fun _ => (none : Option Unit)) (fun _ => "")
      (Except.error "prompt load failed" : Except String Prompts)
      (fun _ _ _ => Except.ok none) (.dict ⟨some "text", "doc-1"⟩) = none := by
  have h := C9_callAoai_total_never_raises (fun _ => (none : Option Unit)) (fun _ => "")
    (Except.error "prompt load failed" : Except String Prompts)
    (fun _ _ _ => Except.ok none) (.dict ⟨some "text", "doc-1"⟩)
  exact h.2.2.2.1 ⟨some "text", "doc-1"⟩ "prompt load failed" rfl

/-! ### Claim C10 — extraction with no paragraphs returns None -/

/-- C10: when blob download and document analysis both succeed but the
analysis yields no paragraphs (`result.paragraphs` absent or the empty
list), the extraction activity returns `none` — the same value it returns on
any extraction error (e.g. a failing download) — rather than an empty text:
the `paragraphs` local is only assigned in the non-empty branch, the
resulting `NameError` is caught, and `None` is returned. -/
theorem C10_runDocIntel_no_paragraphs {E B : Type}
    (get_blob_content : String → String → Except E B)
    (analyze : B → Except E (Option (List Paragraph)))
    (blobObj : BlobMetadata) :
    (∀ e, get_blob_content blobObj.container
          (normalize_blob_name blobObj.container blobObj.name) = Except.error e →
        extract_text_from_blob get_blob_content analyze blobObj = none)
    ∧ (∀ bc, get_blob_content blobObj.container
          (normalize_blob_name blobObj.container blobObj.name) = Except.ok bc →
        analyze bc = Except.ok none ∨ analyze bc = Except.ok (some []) →
        extract_text_from_blob get_blob_content analyze blobObj = none) := by
  constructor
  · intro e he
    simp [extract_text_from_blob, he]
  · intro bc hbc hana
    rcases hana with h | h <;> simp [extract_text_from_blob, hbc, h]

/-- Closed instance of C10: a successful analysis with an empty paragraph
list extracts to `None`. -/
theorem C10_runDocIntel_no_paragraphs_witness :
    extract_text_from_blob (E := String) (B := ℕ) (fun _ _ => Except.ok 0)
      (fun _ => Except.ok (some [])) ⟨"bronze/f.txt", "u", "bronze"⟩ = none := by
  have h := C10_runDocIntel_no_paragraphs (E := String) (B := ℕ)
    (fun _ _ => Except.ok 0) (fun _ => Except.ok (some []))
    ⟨"bronze/f.txt", "u", "bronze"⟩
  exact h.2 0 rfl (Or.inr rfl)

/-! ### Claims C3 and C7 — batch coordination -/

/-- Applying `task_all` to a list of already-successful tasks yields their values in
task order. -/
theorem task_all_map_ok {E R : Type} (rs : List R) :
    task_all (rs.map (Except.ok : R → Except E R)) = Except.ok rs := by
  induction rs with
  | nil => rfl
  | cons r rs ih =>
    simp only [List.map, task_all, ih]

/-- Unfolding `task_all` at a successful head task. -/
theorem task_all_cons_ok {E R : Type} (r : R) (ts : List (Except E R)) :
    task_all (Except.ok r :: ts)
      = match task_all ts with
        | Except.error e => Except.error e
        | Except.ok rs => Except.ok (r :: rs) := rfl

/-- Unfolding `task_all` at a failed head task. -/
theorem task_all_cons_error {E R : Type} (e : E) (ts : List (Except E R)) :
    task_all (Except.error e :: ts) = Except.error e := rfl

/-- If `task_all` succeeded, every task succeeded and the result list is the
task list with the `ok` wrappers removed, in task order. -/
theorem task_all_ok_implies {E R : Type} (ts : List (Except E R)) (rs : List R)
    (h : task_all ts = Except.ok rs) : ts = rs.map Except.ok := by
  induction ts generalizing rs with
  | nil =>
    have : rs = [] := (Except.ok.inj h).symm
    subst this
    rfl
  | cons t ts ih =>
    cases t with
    | error e =>
      rw [task_all_cons_error] at h
      exact absurd h (by intro hc; exact Except.noConfusion hc)
    | ok r0 =>
      rcases hta : task_all ts with e | rs0
      · rw [task_all_cons_ok, hta] at h
        exact absurd h (by intro hc; exact Except.noConfusion hc)
      · rw [task_all_cons_ok, hta] at h
        have hrs : rs = r0 :: rs0 := (Except.ok.inj h).symm
        subst hrs
        simp only [List.map, List.cons.injEq]
        exact ⟨trivial, ih rs0 hta⟩

/-- C3 counterexample: a batch with a single child whose document workflow
terminally failed (its sub-orchestration raised, e.g. after retry exhaustion)
does not complete — `task_all` propagates the child failure and the batch
fails as a unit, contradicting the claim that the coordinator completes
regardless of how many children failed. -/
theorem C3_counterexample :
    orchestrator_run
        (fun _ => (Except.error "child workflow failed" : Except String ResultPayload))
        [⟨"bronze/a.txt", "u", "bronze"⟩]
      = Except.error "child workflow failed" := rfl

/-- C3 (amended): the batch coordinator completes with one entry per child in
input order — and the empty batch (N = 0) completes immediately with the
empty result — provided every child workflow returns a payload; children
whose *stages* failed still return payloads (their stage failures are
embedded in the payload, cf. C9/C10), so stage-level failures never fail the
batch.  But a child workflow that itself terminally fails (raises) fails the
whole batch: the batch then produces no result at all. -/
theorem C3_batch_completion_amended {E : Type}
    (child : BlobMetadata → Except E ResultPayload)
    (payload : BlobMetadata → ResultPayload)
    (input_data : List BlobMetadata) :
    orchestrator_run child [] = Except.ok []
    ∧ ((∀ b ∈ input_data, child b = Except.ok (payload b)) →
        orchestrator_run child input_data = Except.ok (input_data.map payload))
    ∧ (∀ b e, b ∈ input_data → child b = Except.error e →
        ∃ e', orchestrator_run child input_data = Except.error e') := by
  refine ⟨rfl, ?_, ?_⟩
  · intro h
    unfold orchestrator_run
    have hmap : input_data.map child
        = (input_data.map payload).map (Except.ok : ResultPayload → Except E ResultPayload) := by
      rw [List.map_map]
      exact List.map_congr_left h
    rw [hmap]
    exact task_all_map_ok (input_data.map payload)
  · intro b e hb he
    induction input_data with
    | nil => exact absurd hb (List.not_mem_nil b)
    | cons b0 bs ih =>
      rcases hc : child b0 with e0 | p0
      · refine ⟨e0, ?_⟩
        unfold orchestrator_run
        simp only [List.map]
        rw [hc]
        rfl
      · rcases List.mem_cons.mp hb with hbe | hbs
        · subst hbe
          rw [hc] at he
          exact Except.noConfusion he
        · obtain ⟨e', he'⟩ := ih hbs
          refine ⟨e', ?_⟩
          unfold orchestrator_run at he' ⊢
          simp only [List.map]
          rw [hc, task_all_cons_ok, he']

/-- Closed instance of C3 (amended): a two-document batch in which one
child's persistence stage failed (its payload records `success := false`)
still completes, with both entries present in input order. -/
theorem C3_batch_completion_amended_witness :
    orchestrator_run
        (fun b =>
          (Except.ok
            (if b.name = "bronze/a.txt" then
              ⟨b, some "text a", ⟨true, some b.name, some "batch/a-output.json", none⟩⟩
            else
              ⟨b, none, ⟨false, none, none, some "Failed to write output"⟩⟩) :
            Except String ResultPayload))
        [⟨"bronze/a.txt", "u1", "bronze"⟩, ⟨"bronze/b.txt", "u2", "bronze"⟩]
      = Except.ok
          [⟨⟨"bronze/a.txt", "u1", "bronze"⟩, some "text a",
            ⟨true, some "bronze/a.txt", some "batch/a-output.json", none⟩⟩,
           ⟨⟨"bronze/b.txt", "u2", "bronze"⟩, none,
            ⟨false, none, none, some "Failed to write output"⟩⟩] := by
  have h := C3_batch_completion_amended
    (fun b =>
      (Except.ok
        (if b.name = "bronze/a.txt" then
          ⟨b, some "text a", ⟨true, some b.name, some "batch/a-output.json", none⟩⟩
        else
          ⟨b, none, ⟨false, none, none, some "Failed to write output"⟩⟩) :
        Except String ResultPayload))
    (fun b =>
      if b.name = "bronze/a.txt" then
        ⟨b, some "text a", ⟨true, some b.name, some "batch/a-output.json", none⟩⟩
      else
        ⟨b, none, ⟨false, none, none, some "Failed to write output"⟩⟩)
    [⟨"bronze/a.txt", "u1", "bronze"⟩, ⟨"bronze/b.txt", "u2", "bronze"⟩]
  have h2 := h.2.1 (fun b _ => rfl)
  rw [h2]
  rfl

/-- C7: whenever the batch orchestrator produces a result list, it has one
entry per input document reference, and the entry at each index `i` is
exactly the payload returned by the child workflow for the `i`-th input
reference — the aggregate is ordered by original input order, not by
completion order, each entry being that document's payload (its success data
or its embedded failure record). -/
theorem C7_batch_result_order {E : Type}
    (child : BlobMetadata → Except E ResultPayload)
    (input_data : List BlobMetadata) (results : List ResultPayload)
    (h : orchestrator_run child input_data = Except.ok results) :
    results.length = input_data.length
    ∧ ∀ i (hi : i < input_data.length) (hi' : i < results.length),
        child (input_data.get ⟨i, hi⟩) = Except.ok (results.get ⟨i, hi'⟩) := by
  have hmap : input_data.map child = results.map Except.ok :=
    task_all_ok_implies _ _ h
  constructor
  · have := congrArg List.length hmap
    simpa using this.symm
  · intro i hi hi'
    have h0 : (input_data.map child)[i]? = (results.map Except.ok)[i]? := by
      rw [hmap]
    simp only [List.getElem?_map, List.getElem?_eq_getElem hi,
      List.getElem?_eq_getElem hi', Option.map_some'] at h0
    have h1 := Option.some.inj h0
    simpa [List.get_eq_getElem] using h1

/-- Closed instance of C7: a concrete two-document batch result carries the
children's payloads at their input positions. -/
theorem C7_batch_result_order_witness :
    ([⟨⟨"bronze/a.txt", "u1", "bronze"⟩, some "ta", ⟨true, none, none, none⟩⟩,
      ⟨⟨"bronze/b.txt", "u2", "bronze"⟩, some "tb", ⟨true, none, none, none⟩⟩] :
        List ResultPayload).length
      = ([⟨"bronze/a.txt", "u1", "bronze"⟩, ⟨"bronze/b.txt", "u2", "bronze"⟩] :
        List BlobMetadata).length := by
  have h := C7_batch_result_order (E := String)
    (fun b =>
      Except.ok (if b.name = "bronze/a.txt" then
        ⟨b, some "ta", ⟨true, none, none, none⟩⟩
      else
        ⟨b, some "tb", ⟨true, none, none, none⟩⟩))
    [⟨"bronze/a.txt", "u1", "bronze"⟩, ⟨"bronze/b.txt", "u2", "bronze"⟩]
    [⟨⟨"bronze/a.txt", "u1", "bronze"⟩, some "ta", ⟨true, none, none, none⟩⟩,
     ⟨⟨"bronze/b.txt", "u2", "bronze"⟩, some "tb", ⟨true, none, none, none⟩⟩]
    (by rfl)
  exact h.1

/-! ### Claim C5 — start-batch validation -/

/-- C5: the start-batch operation rejects with a 400 validation error —
creating no workflow instance (the `start_new` log stays empty) — whenever
the body is invalid JSON, the `blobs` member is missing, not a list, or
empty, or any entry lacks a non-empty-string `name`, `url` or `container`;
and on every valid, non-empty input it starts exactly one instance and
returns its id with a 202 accepted response. -/
theorem C5_start_batch_validation (start_new : List BlobEntry → String) :
    start_orchestrator_http start_new none = (⟨400, false, none⟩, [])
    ∧ start_orchestrator_http start_new (some .missing) = (⟨400, false, none⟩, [])
    ∧ start_orchestrator_http start_new (some .notAList) = (⟨400, false, none⟩, [])
    ∧ start_orchestrator_http start_new (some (.arr [])) = (⟨400, false, none⟩, [])
    ∧ (∀ entries, entries.all validEntry = false →
        start_orchestrator_http start_new (some (.arr entries)) = (⟨400, false, none⟩, []))
    ∧ (∀ entries, entries ≠ [] → entries.all validEntry = true →
        start_orchestrator_http start_new (some (.arr entries))
          = (⟨202, true, some (start_new entries)⟩, [entries])) := by
  refine ⟨rfl, rfl, rfl, rfl, ?_, ?_⟩
  · intro entries hbad
    cases entries with
    | nil => exact absurd hbad (by simp)
    | cons b bs => simp [start_orchestrator_http, hbad]
  · intro entries hne hval
    simp [start_orchestrator_http, hne, hval]

/-- Closed instance of C5: a single well-formed entry is accepted and starts
exactly one orchestration. -/
theorem C5_start_batch_validation_witness :
    start_orchestrator_http (fun _ => "instance-1")
        (some (.arr [.object (some (.str "a.txt")) (some (.str "https://x/a.txt"))
          (some (.str "bronze"))]))
      = (⟨202, true, some "instance-1"⟩,
        [[.object (some (.str "a.txt")) (some (.str "https://x/a.txt"))
          (some (.str "bronze"))]]) := by
  have h := C5_start_batch_validation (fun _ => "instance-1")
  exact h.2.2.2.2.2
    [.object (some (.str "a.txt")) (some (.str "https://x/a.txt")) (some (.str "bronze"))]
    (by decide) (by decide)

/-! ### Claim C6 — persistence destination key -/

/-- C6: when the document workflow was spawned by a batch (the parent
instance id is present and non-empty) and all three stages run — the
persistence stage being the real `writeToBlob` activity — the output is
written under the destination key `{batchParentId}/{documentBaseName}-output.json`
built from the *batch parent* instance id (not the document workflow's own
id) and the document's file name without its extension. -/
theorem C6_destination_key {E : Type} (ctx : ProcessBlobCtx) (b : BlobMetadata)
    (parentId : String) (NEXT_STAGE : String)
    (ext : BlobMetadata → Except E (Option String))
    (tra : CallAoaiInput → Except E (Option String))
    (write_to_blob : String → String → String → Except E Bool)
    (t : Option String) (js : String)
    (hpar : ctx.parent_instance_id = some parentId) (hne : parentId ≠ "")
    (hext : ext b = Except.ok t)
    (htra : tra ⟨t, ctx.instance_id⟩ = Except.ok (some js))
    (hjs : pyStrip js ≠ "")
    (hwrite : ∀ c k d, write_to_blob c k d = Except.ok true) :
    (process_blob ctx b ext tra
        (fun args => Except.ok (writeToBlob_run write_to_blob NEXT_STAGE args))).1
      = Except.ok
          ⟨b, t,
            ⟨true, some b.name,
              some (parentId ++ "/" ++ splitextRoot (basename b.name) ++ "-output.json"),
              none⟩⟩ := by
  have hor : pyOrStr ctx.parent_instance_id ctx.instance_id = parentId := by
    rw [hpar]
    simp [pyOrStr, hne]
  simp only [process_blob, hext, htra, hor]
  simp only [writeToBlob_run, hjs, hwrite, Option.getD_some, if_neg hjs, if_pos rfl]
  simp

/-- Closed instance of C6: a document named `bronze/report.pdf` in batch
`batch-1` is written to `batch-1/report-output.json`. -/
theorem C6_destination_key_witness :
    (process_blob (E := String) ⟨"doc-1", some "batch-1"⟩ ⟨"bronze/report.pdf", "u", "bronze"⟩
        (fun _ => Except.ok (some "extracted text"))
        (fun _ => Except.ok (some "[1,2]"))
        (fun args => Except.ok
          (writeToBlob_run (fun _ _ _ => (Except.ok true : Except String Bool))
            "silver" args))).1
      = Except.ok
          ⟨⟨"bronze/report.pdf", "u", "bronze"⟩, some "extracted text",
            ⟨true, some "bronze/report.pdf", some "batch-1/report-output.json", none⟩⟩ := by
  have h := C6_destination_key (E := String) ⟨"doc-1", some "batch-1"⟩
    ⟨"bronze/report.pdf", "u", "bronze"⟩ "batch-1" "silver"
    (fun _ => Except.ok (some "extracted text"))
    (fun _ => Except.ok (some "[1,2]"))
    (fun _ _ _ => Except.ok true)
    (some "extracted text") "[1,2]"
    rfl (by decide) rfl rfl (by decide) (fun _ _ _ => rfl)
  rw [h]
  rfl

/-! ### Claim C8 — listing recent instances -/

/-- C8: the listing clamps the limit to 1–100 with default 20, returns at
most `limit` summaries, sorted newest-first by `createdTime`, drawn from the
registry's statuses; when `since` is supplied every returned instance has a
`createdTime` at or after it; and with no `since` filter the count is
exactly `min(limit, total)` — so a limit of 5 over 10 instances returns
exactly the 5 newest. -/
theorem C8_list_recent (statuses : List OrchStatus) (limit_param : Option ℤ)
    (since_param : Option ℕ) :
    (1 ≤ effectiveLimit limit_param ∧ effectiveLimit limit_param ≤ 100)
    ∧ (limit_param = none → effectiveLimit limit_param = 20)
    ∧ (list_orchestration_history statuses limit_param since_param).length
        ≤ (effectiveLimit limit_param).toNat
    ∧ List.Pairwise (fun a b => statusSortKey b ≤ statusSortKey a)
        (list_orchestration_history statuses limit_param since_param)
    ∧ (∀ s ∈ list_orchestration_history statuses limit_param since_param, s ∈ statuses)
    ∧ (∀ since, since_param = some since →
        ∀ s ∈ list_orchestration_history statuses limit_param since_param,
          ∃ ct, s.created_time = some ct ∧ since ≤ ct)
    ∧ (since_param = none →
        (list_orchestration_history statuses limit_param since_param).length
          = min (effectiveLimit limit_param).toNat statuses.length) := by
  haveI hT : IsTrans OrchStatus (fun a b => statusSortKey b ≤ statusSortKey a) :=
    ⟨fun a b c h1 h2 => le_trans h2 h1⟩
  haveI hTot : IsTotal OrchStatus (fun a b => statusSortKey b ≤ statusSortKey a) :=
    ⟨fun a b => le_total _ _⟩
  have hlim1 : 1 ≤ effectiveLimit limit_param := le_max_left _ _
  have hlim2 : effectiveLimit limit_param ≤ 100 :=
    max_le (by norm_num) (min_le_right _ _)
  cases since_param with
  | none =>
    have hdef : list_orchestration_history statuses limit_param none
        = (statuses.insertionSort (fun a b => statusSortKey b ≤ statusSortKey a)).take
            (effectiveLimit limit_param).toNat := rfl
    refine ⟨⟨hlim1, hlim2⟩, ?_, ?_, ?_, ?_, ?_, ?_⟩
    · intro h
      subst h
      decide
    · rw [hdef, List.length_take]
      exact min_le_left _ _
    · rw [hdef]
      exact List.Pairwise.sublist (List.take_sublist _ _)
        (List.sorted_insertionSort _ _)
    · intro s hs
      rw [hdef] at hs
      exact (List.perm_insertionSort _ _).subset ((List.take_sublist _ _).subset hs)
    · intro since hsince
      exact absurd hsince (fun hc => Option.noConfusion hc)
    · rintro -
      rw [hdef, List.length_take, (List.perm_insertionSort _ statuses).length_eq]
  | some since =>
    have hdef : list_orchestration_history statuses limit_param (some since)
        = ((statuses.filter (fun (s : OrchStatus) =>
              match s.created_time with
              | some t => decide (since ≤ t)
              | none => false)).insertionSort
            (fun a b => statusSortKey b ≤ statusSortKey a)).take
            (effectiveLimit limit_param).toNat := rfl
    have hmemFiltered : ∀ s ∈ list_orchestration_history statuses limit_param (some since),
        s ∈ statuses.filter (fun (s : OrchStatus) =>
          match s.created_time with
          | some t => decide (since ≤ t)
          | none => false) := by
      intro s hs
      rw [hdef] at hs
      exact (List.perm_insertionSort _ _).subset ((List.take_sublist _ _).subset hs)
    refine ⟨⟨hlim1, hlim2⟩, ?_, ?_, ?_, ?_, ?_, ?_⟩
    · intro h
      subst h
      decide
    · rw [hdef, List.length_take]
      exact min_le_left _ _
    · rw [hdef]
      exact List.Pairwise.sublist (List.take_sublist _ _)
        (List.sorted_insertionSort _ _)
    · intro s hs
      exact List.mem_of_mem_filter (hmemFiltered s hs)
    · intro since' hsince' s hs
      have hsince2 : since' = since := (Option.some.inj hsince').symm
      subst hsince2
      have hf := List.mem_filter.mp (hmemFiltered s hs)
      rcases hct : s.created_time with - | t
      · rw [hct] at hf
        exact absurd hf.2 (by simp)
      · rw [hct] at hf
        refine ⟨t, rfl, ?_⟩
        have := hf.2
        simpa using this
    · intro h
      exact absurd h (fun hc => Option.noConfusion hc)

/-- Closed instance of C8 (the spec's scenario): listing with `limit = 5`
over 10 instances returns exactly the 5 newest, newest-first by
`createdTime`. -/
theorem C8_list_recent_witness :
    (list_orchestration_history
        [⟨"i1", some 1⟩, ⟨"i2", some 2⟩, ⟨"i3", some 3⟩, ⟨"i4", some 4⟩,
         ⟨"i5", some 5⟩, ⟨"i6", some 6⟩, ⟨"i7", some 7⟩, ⟨"i8", some 8⟩,
         ⟨"i9", some 9⟩, ⟨"i10", some 10⟩] (some 5) none).length = 5
    ∧ list_orchestration_history
        [⟨"i1", some 1⟩, ⟨"i2", some 2⟩, ⟨"i3", some 3⟩, ⟨"i4", some 4⟩,
         ⟨"i5", some 5⟩, ⟨"i6", some 6⟩, ⟨"i7", some 7⟩, ⟨"i8", some 8⟩,
         ⟨"i9", some 9⟩, ⟨"i10", some 10⟩] (some 5) none
      = [⟨"i10", some 10⟩, ⟨"i9", some 9⟩, ⟨"i8", some 8⟩, ⟨"i7", some 7⟩,
         ⟨"i6", some 6⟩] := by
  have h := C8_list_recent
    [⟨"i1", some 1⟩, ⟨"i2", some 2⟩, ⟨"i3", some 3⟩, ⟨"i4", some 4⟩,
     ⟨"i5", some 5⟩, ⟨"i6", some 6⟩, ⟨"i7", some 7⟩, ⟨"i8", some 8⟩,
     ⟨"i9", some 9⟩, ⟨"i10", some 10⟩] (some 5) none
  have hlen := h.2.2.2.2.2.2 rfl
  constructor
  · rw [hlen]
    decide
  · decide

end DocPipeline
